import Mathlib

/-!
Verification of the SecOps-Buddy change-detection / notification pipeline.

The development shallowly embeds the Python sources:
  * `secops_buddy/agent.py` — `_read_json`, `_read_state`, `_diff`, `_notify`;
  * `secops_buddy/notifications.py` — `NotificationManager` detectors,
    `send_all`, `build_next_state`;
  * `run.py` — restart argv construction and the `can_daemon` guard.

Python values flowing through the pipeline (parsed JSON snapshots and
persisted state) are modelled by the inductive type `J`.  Python sets are
modelled as deduplicated lists (`List.dedup`); `sorted` is modelled by the
insertion sort `pySorted`.  CPython's `repr` of containers inside `str()` is
abstracted (no detector output examined below depends on it).  Delivery of a
message over the network is modelled by an oracle `fails : Int → String →
Bool` telling which `(recipient, text)` sends raise.
-/

namespace SecOps

/-- Python/JSON values as they appear in snapshots and persisted state:
`None`, booleans, integers, strings, lists and dicts (as association lists,
first binding wins on lookup, mirroring a dict with unique keys). -/
inductive J where
  | null
  | bool (b : Bool)
  | int (n : Int)
  | str (s : String)
  | list (xs : List J)
  | obj (kvs : List (String × J))

mutual

/-- Structural equality test on `J` (Python `==` on these shapes). -/
def J.beq : J → J → Bool
  | .null, .null => true
  | .bool a, .bool b => a == b
  | .int a, .int b => a == b
  | .str a, .str b => a == b
  | .list xs, .list ys => J.beqL xs ys
  | .obj xs, .obj ys => J.beqO xs ys
  | _, _ => false

/-- Equality test on lists of `J`. -/
def J.beqL : List J → List J → Bool
  | [], [] => true
  | x :: xs, y :: ys => J.beq x y && J.beqL xs ys
  | _, _ => false

/-- Equality test on association lists of `J`. -/
def J.beqO : List (String × J) → List (String × J) → Bool
  | [], [] => true
  | (k1, v1) :: xs, (k2, v2) :: ys => k1 == k2 && J.beq v1 v2 && J.beqO xs ys
  | _, _ => false

end

mutual

theorem J.beq_iff : ∀ a b : J, J.beq a b = true ↔ a = b
  | .null, .null => by simp [J.beq]
  | .bool a, .bool b => by simp [J.beq]
  | .int a, .int b => by simp [J.beq]
  | .str a, .str b => by simp [J.beq]
  | .list xs, .list ys => by
    simp only [J.beq]
    rw [J.beqL_iff xs ys]
    constructor
    · intro h; rw [h]
    · intro h; cases h; rfl
  | .obj xs, .obj ys => by
    simp only [J.beq]
    rw [J.beqO_iff xs ys]
    constructor
    · intro h; rw [h]
    · intro h; cases h; rfl
  | .null, .bool _ | .null, .int _ | .null, .str _ | .null, .list _ | .null, .obj _ => by simp [J.beq]
  | .bool _, .null | .bool _, .int _ | .bool _, .str _ | .bool _, .list _ | .bool _, .obj _ => by simp [J.beq]
  | .int _, .null | .int _, .bool _ | .int _, .str _ | .int _, .list _ | .int _, .obj _ => by simp [J.beq]
  | .str _, .null | .str _, .bool _ | .str _, .int _ | .str _, .list _ | .str _, .obj _ => by simp [J.beq]
  | .list _, .null | .list _, .bool _ | .list _, .int _ | .list _, .str _ | .list _, .obj _ => by simp [J.beq]
  | .obj _, .null | .obj _, .bool _ | .obj _, .int _ | .obj _, .str _ | .obj _, .list _ => by simp [J.beq]

theorem J.beqL_iff : ∀ xs ys : List J, J.beqL xs ys = true ↔ xs = ys
  | [], [] => by simp [J.beqL]
  | x :: xs, y :: ys => by
    simp only [J.beqL, Bool.and_eq_true]
    rw [J.beq_iff x y, J.beqL_iff xs ys]
    simp
  | [], _ :: _ => by simp [J.beqL]
  | _ :: _, [] => by simp [J.beqL]

theorem J.beqO_iff : ∀ xs ys : List (String × J), J.beqO xs ys = true ↔ xs = ys
  | [], [] => by simp [J.beqO]
  | (k1, v1) :: xs, (k2, v2) :: ys => by
    simp only [J.beqO, Bool.and_eq_true]
    rw [J.beq_iff v1 v2, J.beqO_iff xs ys]
    simp [beq_iff_eq, and_assoc]
  | [], _ :: _ => by simp [J.beqO]
  | _ :: _, [] => by simp [J.beqO]

end

instance : DecidableEq J := fun a b => decidable_of_iff _ (J.beq_iff a b)

/-- Python `isinstance(x, dict)`. -/
def J.isObj : J → Bool
  | .obj _ => true
  | _ => false

/-- Python `isinstance(x, list)`. -/
def J.isList : J → Bool
  | .list _ => true
  | _ => false

/-- Python `isinstance(x, int)`; note that in CPython this is also true of
booleans, which the source relies on implicitly. -/
def J.isIntLike : J → Bool
  | .int _ => true
  | .bool _ => true
  | _ => false

/-- Numeric value of an int-like `J` (Python treats `True` as `1` and
`False` as `0` wherever an int is expected). -/
def J.asIntLike : J → Int
  | .int n => n
  | .bool b => if b then 1 else 0
  | _ => 0

/-- Elements of a `J` known to be a list (callers guard with `isList`). -/
def J.asList : J → List J
  | .list xs => xs
  | _ => []

/-- Bindings of a `J` known to be a dict (callers guard with `isObj`). -/
def J.asObj : J → List (String × J)
  | .obj kvs => kvs
  | _ => []

/-- First binding of key `k` in an association list, `None` when absent. -/
def getKv : List (String × J) → String → J
  | [], _ => .null
  | (k1, v) :: rest, k => if k1 = k then v else getKv rest k

/-- Whether an association list binds key `k` (Python `k in d`). -/
def hasKv : List (String × J) → String → Bool
  | [], _ => false
  | (k1, _) :: rest, k => if k1 = k then true else hasKv rest k

/-- Python `d.get(k)`: the bound value, or `None` when the key is absent.
The sources only call `.get` on values already guarded to be dicts. -/
def J.get : J → String → J
  | .obj kvs, k => getKv kvs k
  | _, _ => .null

/-- Python truthiness of a value. -/
def J.truthy : J → Bool
  | .null => false
  | .bool b => b
  | .int n => n != 0
  | .str s => s != ""
  | .list xs => !xs.isEmpty
  | .obj kvs => !kvs.isEmpty

/-- Python `a or b`. -/
def pyOr (a b : J) : J := if a.truthy then a else b

mutual

/-- Python `str(x)`.  Strings are returned as-is; `None`, booleans and ints
use their CPython spelling.  For containers the element-quoting of CPython's
`repr` is abstracted away: no claim below inspects the rendering of a
container, only that it is some string that is never equal to a status word
such as `"warn"` or `"crit"`. -/
def pyStr : J → String
  | .null => "None"
  | .bool true => "True"
  | .bool false => "False"
  | .int n => toString n
  | .str s => s
  | .list xs => "[" ++ pyStrL xs ++ "]"
  | .obj kvs => "\x7b" ++ pyStrO kvs ++ "\x7d"

/-- Rendering of list elements for `pyStr`. -/
def pyStrL : List J → String
  | [] => ""
  | [x] => pyStr x
  | x :: xs => pyStr x ++ ", " ++ pyStrL xs

/-- Rendering of dict bindings for `pyStr`. -/
def pyStrO : List (String × J) → String
  | [] => ""
  | [(k, v)] => k ++ ": " ++ pyStr v
  | (k, v) :: xs => k ++ ": " ++ pyStr v ++ ", " ++ pyStrO xs

end

/-- Python `int(s)` on a string: optional surrounding whitespace, optional
sign, decimal digits; anything else raises (`none`). -/
def pyParseInt (s : String) : Option Int :=
  let t := s.trim
  let core := if t.startsWith "-" ∨ t.startsWith "+" then t.drop 1 else t
  match core.toNat? with
  | some n => some (if t.startsWith "-" then -(n : Int) else (n : Int))
  | none => none

/-- Python `int(x)`: ints pass through, booleans coerce, strings parse,
everything else raises (`none`). -/
def pyToInt : J → Option Int
  | .bool b => some (if b then 1 else 0)
  | .int n => some n
  | .str s => pyParseInt s
  | _ => none

/-- Embeds the recurring source idiom
`x.get(k) if isinstance(x.get(k), dict) else \x7b\x7d`. -/
def objOr (v : J) : J := if v.isObj then v else .obj []

/-- Embeds the recurring source idiom
`x.get(k) if isinstance(x.get(k), list) else []`. -/
def listOr (v : J) : List J := if v.isList then v.asList else []

/-- Embeds the source idiom
`int(v or 0) if isinstance(v, int) else 0` used for stored counters. -/
def intOrZero (v : J) : Int :=
  if v.isIntLike then (pyToInt (pyOr v (.int 0))).getD 0 else 0

/-- One insertion step of `pySorted`. -/
def pyInsert (le : α → α → Bool) (x : α) : List α → List α
  | [] => [x]
  | y :: ys => if le x y then x :: y :: ys else y :: pyInsert le x ys

/-- Model of Python `sorted`: an insertion sort by the boolean order `le`.
Only membership in the result matters to the claims below. -/
def pySorted (le : α → α → Bool) (xs : List α) : List α :=
  xs.foldr (pyInsert le) []

theorem mem_pyInsert (le : α → α → Bool) (x a : α) (xs : List α) :
    a ∈ pyInsert le x xs ↔ a = x ∨ a ∈ xs := by
  induction xs with
  | nil => simp [pyInsert]
  | cons y ys ih =>
    simp only [pyInsert]
    by_cases h : le x y = true
    · simp [h]
    · rw [if_neg h, List.mem_cons, ih, List.mem_cons]
      tauto

theorem mem_pySorted (le : α → α → Bool) (a : α) (xs : List α) :
    a ∈ pySorted le xs ↔ a ∈ xs := by
  induction xs with
  | nil => simp [pySorted]
  | cons y ys ih =>
    simp only [pySorted, List.foldr_cons, mem_pyInsert, List.mem_cons]
    rw [← pySorted, ih]

/-- String comparison used by `sorted` on lists of strings. -/
def leStr (a b : String) : Bool := decide (a ≤ b)

/-- A listening-socket tuple `(proto, ip, port)` as built by `port_set`. -/
abbrev PortTup := String × String × Int

/-- Lexicographic comparison of socket tuples, as Python `sorted` orders
them. -/
def lePort (x y : PortTup) : Bool :=
  if x.1 ≠ y.1 then decide (x.1 < y.1)
  else if x.2.1 ≠ y.2.1 then decide (x.2.1 < y.2.1)
  else decide (x.2.2 ≤ y.2.2)

/-- Keeps a value only when it is a Python `str` (the source idiom
`[str(x) for x in xs if isinstance(x, str)]`; `str` of a `str` is itself). -/
def asStrOpt : J → Option String
  | .str s => some s
  | _ => none

/-- Configuration slice read by `_notify` / `NotificationManager`:
`notifications.send_warning` and `notifications.send_critical`. -/
structure NotifyConfig where
  send_warning : Bool
  send_critical : Bool

/-- An alert as appended by `NotificationManager.add`: severity level
(`"warn"` or `"crit"`) and message text. -/
abbrev Alert := String × String

/-- Wraps a string in the `<code>` markup used by every message body. -/
def codeTag (s : String) : String := "<code>" ++ s ++ "</code>"

/-- Python `"\n".join(xs)`. -/
def joinLines (xs : List String) : String := String.intercalate "\n" xs

/-- The `logs` category of the current snapshot:
`cur.get("logs") if isinstance(cur.get("logs"), dict) else \x7b\x7d`. -/
def cur_logs_of (cur : J) : J := objOr (cur.get "logs")

/-- Login-source IP set extracted from the `logs` category (the set built at
the top of `check_new_ips` / `_notify`). -/
def cur_ips_of (cur : J) : List J :=
  let logs := cur_logs_of cur
  if (logs.get "data").isObj then
    let ips := (logs.get "data").get "ips"
    (if ips.isList then (pyOr ips (.list [])).asList else []).dedup
  else []

/-- Stored IP set of the previous NotificationState:
`set(prev_state.get("ips") or []) if isinstance(..., list) else set()`. -/
def prev_ips_of (st : J) : List J :=
  (if (st.get "ips").isList then (pyOr (st.get "ips") (.list [])).asList else []).dedup

/-- New login IPs: string members of the set difference, excluding the empty
string and the unspecified address, sorted. -/
def new_ips_of (cur st : J) : List String :=
  pySorted leStr
    (((cur_ips_of cur).filter (fun ip => decide (ip ∉ prev_ips_of st))).filterMap
      (fun ip =>
        match ip with
        | J.str s => if s ≠ "" ∧ s ≠ "0.0.0.0" then some s else none
        | _ => none))

/-- One entry of `ports.data.entries` turned into a socket tuple, or skipped:
the body of the loop inside `port_set`. -/
def portOfEntry (e : J) : Option PortTup :=
  if e.isObj then
    let proto := (pyStr (pyOr (e.get "proto") (.str ""))).trim.toLower
    let ip := (pyStr (pyOr (e.get "ip") (.str ""))).trim
    let port := (pyToInt (pyOr (e.get "port") (.int 0))).getD 0
    if 0 < port ∧ proto ≠ "" then some (proto, ip, port) else none
  else none

/-- The helper `port_set(x)`: socket tuples of `x.data.entries`. -/
def port_set (x : J) : List PortTup :=
  let data := objOr (x.get "data")
  let entries := listOr (data.get "entries")
  (entries.filterMap portOfEntry).dedup

/-- Socket tuples of the current snapshot:
`port_set(cur.get("ports") if isinstance(..., dict) else \x7b\x7d)`. -/
def cur_ps_of (cur : J) : List PortTup :=
  port_set (objOr (cur.get "ports"))

/-- One element of the stored `ports` list turned back into a tuple: kept
only when it is a 3-element list of `str`, `str`, `int` (a CPython `bool`
also passes `isinstance(port, int)` and compares equal to its numeral, hence
`asIntLike`). -/
def portOfState (t : J) : Option PortTup :=
  match t with
  | .list [p, i, pt] =>
    match p, i with
    | .str proto, .str ip =>
      if pt.isIntLike then some (proto, ip, pt.asIntLike) else none
    | _, _ => none
  | _ => none

/-- Stored socket-tuple set of the previous NotificationState. -/
def prev_ps_of (st : J) : List PortTup :=
  (match st.get "ports" with
   | .list ts => ts.filterMap portOfState
   | _ => []).dedup

/-- The helper `sudo_set(x)`: privileged users of `x.data.sudo_users`,
keeping strings with non-blank content. -/
def sudo_set (x : J) : List String :=
  let data := objOr (x.get "data")
  let lst := listOr (data.get "sudo_users")
  (lst.filterMap (fun u =>
    match u with
    | J.str s => if s.trim ≠ "" then some s else none
    | _ => none)).dedup

/-- Privileged users of the current snapshot. -/
def cur_sudo_of (cur : J) : List String :=
  sudo_set (objOr (cur.get "users"))

/-- Stored privileged-user set of the previous NotificationState. -/
def prev_sudo_of (st : J) : List J :=
  (if (st.get "sudo_users").isList then (pyOr (st.get "sudo_users") (.list [])).asList
   else []).dedup

/-- New privileged users: current members absent from the stored set,
sorted. -/
def new_sudo_of (cur st : J) : List String :=
  pySorted leStr
    ((cur_sudo_of cur).filter (fun s => decide (J.str s ∉ prev_sudo_of st)))

/-- The helper `upd_count(x)`: `int(x.data.count or 0)`, `0` on error. -/
def upd_count (x : J) : Int :=
  let data := objOr (x.get "data")
  (pyToInt (pyOr (data.get "count") (.int 0))).getD 0

/-- Pending-update count of the current snapshot. -/
def cur_cc_of (cur : J) : Int := upd_count (objOr (cur.get "updates"))

/-- Stored update count of the previous NotificationState. -/
def prev_pc_of (st : J) : Int := intOrZero (st.get "updates_count")

/-- Log severity of the current snapshot:
`str(cur_logs.get("status") or "")`. -/
def cur_log_status_of (cur : J) : String :=
  pyStr (pyOr ((cur_logs_of cur).get "status") (.str ""))

/-- Stored log severity of the previous NotificationState:
`str(prev_state.get("logs_status") or "")`. -/
def prev_log_status_of (st : J) : String :=
  pyStr (pyOr (st.get "logs_status") (.str ""))

/-- The new-login-IP detector (`NotificationManager.check_new_ips`; the same
statements appear inline in `agent._notify`). -/
def check_new_ips (c : NotifyConfig) (cur st : J) : List Alert :=
  let new_ips := new_ips_of cur st
  if new_ips ≠ [] ∧ c.send_warning then
    [("warn", "<b>Новый IP входа</b>\n" ++ joinLines ((new_ips.take 10).map codeTag))]
  else []

/-- Message line for one socket tuple. -/
def portLine (t : PortTup) : String :=
  codeTag (t.2.1 ++ ":" ++ toString t.2.2 ++ " | " ++ t.1)

/-- The port-set detector (`NotificationManager.check_ports`; the same
statements appear inline in `agent._notify`). -/
def check_ports (c : NotifyConfig) (cur st : J) : List Alert :=
  let added := pySorted lePort ((cur_ps_of cur).filter (fun t => decide (t ∉ prev_ps_of st)))
  let removed := pySorted lePort ((prev_ps_of st).filter (fun t => decide (t ∉ cur_ps_of cur)))
  if (added ≠ [] ∨ removed ≠ []) ∧ c.send_warning then
    [("warn", joinLines (["<b>Изменились порты</b>"]
      ++ (if added ≠ [] then ["", "<b>Открылись</b>"] ++ (added.take 15).map portLine else [])
      ++ (if removed ≠ [] then ["", "<b>Закрылись</b>"] ++ (removed.take 15).map portLine else [])))]
  else []

/-- The privileged-user detector (`NotificationManager.check_sudo_users`;
inline in `agent._notify`). -/
def check_sudo_users (c : NotifyConfig) (cur st : J) : List Alert :=
  let new_sudo := new_sudo_of cur st
  if new_sudo ≠ [] ∧ c.send_critical then
    [("crit", "<b>Новый sudo-пользователь</b>\n" ++ joinLines ((new_sudo.take 20).map codeTag))]
  else []

/-- The pending-updates detector (`NotificationManager.check_updates`;
inline in `agent._notify`): fires only on the 0 to nonzero edge. -/
def check_updates (c : NotifyConfig) (cur st : J) : List Alert :=
  let cur_upd := objOr (cur.get "updates")
  let pc := prev_pc_of st
  let cc := upd_count cur_upd
  if 0 < cc ∧ pc = 0 ∧ c.send_warning then
    let data := objOr (cur_upd.get "data")
    let pkgs := if (data.get "packages").isList
      then ((data.get "packages").asList.take 10).map pyStr else []
    let base := "<b>Доступны обновления</b>\n" ++ codeTag (toString cc) ++ " пакетов"
    [("warn", if pkgs ≠ [] then base ++ "\n\n" ++ joinLines (pkgs.map codeTag) else base)]
  else []

/-- The log-severity-transition detector (`NotificationManager.check_logs`;
inline in `agent._notify`): fires when the current status is `warn` or
`crit` and differs from the stored status. -/
def check_logs (c : NotifyConfig) (cur st : J) : List Alert :=
  let curS := cur_log_status_of cur
  let prevS := prev_log_status_of st
  if curS = "warn" ∨ curS = "crit" then
    let data := objOr ((cur_logs_of cur).get "data")
    let ft := intOrZero (data.get "failed_total")
    let fr := intOrZero (data.get "failed_root")
    let iu := intOrZero (data.get "invalid_user")
    if curS ≠ prevS then
      (if curS = "crit" ∧ c.send_critical then
        [("crit", "<b>Критичные события в логах</b>\nfailed_total=" ++ codeTag (toString ft)
          ++ " failed_root=" ++ codeTag (toString fr)
          ++ " invalid_user=" ++ codeTag (toString iu))]
       else [])
      ++ (if curS = "warn" ∧ c.send_warning then
        [("warn", "<b>Предупреждения в логах</b>\nfailed_total=" ++ codeTag (toString ft)
          ++ " invalid_user=" ++ codeTag (toString iu))]
       else [])
    else []
  else []

/-- Firewall payload of the current snapshot:
`(cur.get("firewall") or \x7b\x7d).get("data")` with the source's
`isinstance` guards. -/
def cur_fw_data_of (cur : J) : J := objOr ((objOr (cur.get "firewall")).get "data")

/-- Current firewall `enabled` flag, kept raw (`None` when absent). -/
def fw_enabled_of (cur : J) : J := (cur_fw_data_of cur).get "enabled"

/-- Current firewall backend name: `str(data.get("backend") or "")`. -/
def fw_backend_of (cur : J) : String :=
  pyStr (pyOr ((cur_fw_data_of cur).get "backend") (.str ""))

/-- Current firewall ruleset:
`sorted([str(x) for x in rules if isinstance(x, str)])` (no dedup). -/
def fw_rules_of (cur : J) : List String :=
  pySorted leStr ((listOr ((cur_fw_data_of cur).get "rules")).filterMap asStrOpt)

/-- Stored firewall `enabled` flag of the previous NotificationState,
`None` unless the stored `firewall` slice is a dict. -/
def prev_fw_enabled_of (st : J) : J :=
  if (st.get "firewall").isObj then (st.get "firewall").get "enabled" else .null

/-- Stored firewall backend of the previous NotificationState. -/
def prev_fw_backend_of (st : J) : String :=
  if (st.get "firewall").isObj
  then pyStr (pyOr ((st.get "firewall").get "backend") (.str "")) else ""

/-- Stored firewall ruleset of the previous NotificationState. -/
def prev_fw_rules_of (st : J) : List String :=
  if (st.get "firewall").isObj ∧ ((st.get "firewall").get "rules").isList then
    pySorted leStr ((((st.get "firewall").get "rules").asList).filterMap asStrOpt)
  else []

/-- Enabled-flag part of `NotificationManager.check_firewall`: guarded by
both values being non-`None`, `crit` on `True` to `False`, `warn` on
`False` to `True`; the backend shown is `cur_fw_backend or
prev_fw_backend`. -/
def fw_enabled_alerts (c : NotifyConfig) (cur st : J) : List Alert :=
  let prevE := prev_fw_enabled_of st
  let curE := fw_enabled_of cur
  let shownB := if fw_backend_of cur ≠ "" then fw_backend_of cur else prev_fw_backend_of st
  if prevE ≠ J.null ∧ curE ≠ J.null then
    (if prevE = J.bool true ∧ curE = J.bool false ∧ c.send_critical then
      [("crit", "<b>Firewall отключён</b>\nbackend=" ++ codeTag shownB)] else [])
    ++ (if prevE = J.bool false ∧ curE = J.bool true ∧ c.send_warning then
      [("warn", "<b>Firewall включён</b>\nbackend=" ++ codeTag shownB)] else [])
  else []

/-- Added rules as computed in `check_firewall`:
`set(cur_fw_rules_s) - set(prev_fw_rules_s)`. -/
def fw_added_of (cur st : J) : List String :=
  (fw_rules_of cur).dedup.filter (fun x => decide (x ∉ prev_fw_rules_of st))

/-- Removed rules as computed in `check_firewall`:
`set(prev_fw_rules_s) - set(cur_fw_rules_s)`. -/
def fw_removed_of (cur st : J) : List String :=
  (prev_fw_rules_of st).dedup.filter (fun x => decide (x ∉ fw_rules_of cur))

/-- Ruleset part of `NotificationManager.check_firewall`: fires when the
current ruleset is non-empty, the sorted rule lists differ, and the set
difference in either direction is non-empty. -/
def fw_rule_alerts (c : NotifyConfig) (cur st : J) : List Alert :=
  if fw_rules_of cur ≠ [] ∧ prev_fw_rules_of st ≠ fw_rules_of cur ∧ c.send_warning then
    let a := fw_added_of cur st
    let r := fw_removed_of cur st
    if a ≠ [] ∨ r ≠ [] then
      [("warn", joinLines (["<b>Изменились правила firewall</b>"]
        ++ (if a ≠ [] then ["", "<b>Добавлено</b>"] ++ ((pySorted leStr a).take 20).map codeTag else [])
        ++ (if r ≠ [] then ["", "<b>Удалено</b>"] ++ ((pySorted leStr r).take 20).map codeTag else [])))]
    else []
  else []

/-- The firewall detector `NotificationManager.check_firewall`: the
enabled-flag section followed by the ruleset section. -/
def check_firewall (c : NotifyConfig) (cur st : J) : List Alert :=
  fw_enabled_alerts c cur st ++ fw_rule_alerts c cur st

/-- The message list built by `agent._notify` for one cycle, in source
order: new IPs, port changes, new sudo users, update edge, log-severity
transition.  (`_notify` has no firewall detector; that one lives only on
`NotificationManager`.) -/
def notifyMsgs (c : NotifyConfig) (cur st : J) : List Alert :=
  check_new_ips c cur st ++ check_ports c cur st ++ check_sudo_users c cur st
    ++ check_updates c cur st ++ check_logs c cur st

/-- A socket tuple rendered back to the stored JSON shape `list(x)`. -/
def portToJ (t : PortTup) : J := .list [.str t.1, .str t.2.1, .int t.2.2]

/-- The `next_state` dict written by `agent._notify` at the end of a cycle.
The comprehension filters `if isinstance(u, str)` are identities here since
`cur_ips_of` is filtered through `asStrOpt` and `cur_sudo_of` already
contains only strings. -/
def agent_next_state (cur : J) : J :=
  .obj [
    ("ips", .list ((pySorted leStr ((cur_ips_of cur).filterMap asStrOpt)).map .str)),
    ("ports", .list ((pySorted lePort (cur_ps_of cur)).map portToJ)),
    ("sudo_users", .list ((pySorted leStr (cur_sudo_of cur)).map .str)),
    ("updates_count", .int (cur_cc_of cur)),
    ("logs_status", .str (cur_log_status_of cur))
  ]

/-- `NotificationManager.build_next_state`: the same five fields plus the
firewall slice, whose stored ruleset is capped at 200 entries. -/
def build_next_state (cur : J) : J :=
  .obj [
    ("ips", .list ((pySorted leStr ((cur_ips_of cur).filterMap asStrOpt)).map .str)),
    ("ports", .list ((pySorted lePort (cur_ps_of cur)).map portToJ)),
    ("sudo_users", .list ((pySorted leStr (cur_sudo_of cur)).map .str)),
    ("updates_count", .int (cur_cc_of cur)),
    ("logs_status", .str (cur_log_status_of cur)),
    ("firewall", .obj [
      ("backend", .str (fw_backend_of cur)),
      ("enabled", fw_enabled_of cur),
      ("rules", .list (((fw_rules_of cur).take 200).map .str))])
  ]

/-- The per-level delivery gate of the send loop: `crit` requires
`send_critical`, `warn` requires `send_warning`, any other level passes. -/
def levelGate (c : NotifyConfig) (level : String) : Bool :=
  !(level == "crit" && !c.send_critical) && !(level == "warn" && !c.send_warning)

/-- The send loop of `NotificationManager.send_all` (identical inline in
`agent._notify`): for each gated message, in order, attempt delivery to each
recipient; a raising send (`fails uid text = true`) is swallowed and the
loop continues.  The result lists the successful deliveries in order. -/
def send_all (c : NotifyConfig) (recipients : List Int) (fails : Int → String → Bool)
    (msgs : List Alert) : List (Int × String) :=
  (msgs.filter (fun m => levelGate c m.1)).flatMap
    (fun m => (recipients.filter (fun uid => !fails uid m.2)).map (fun uid => (uid, m.2)))

/-- One run of `agent._notify` past its early returns: the successful
deliveries and the NotificationState written at the end of the cycle. -/
def notify (c : NotifyConfig) (recipients : List Int) (fails : Int → String → Bool)
    (cur st : J) : List (Int × String) × J :=
  (send_all c recipients fails (notifyMsgs c cur st), agent_next_state cur)

/-- The changed map built by `agent._diff`: first the current categories
whose value differs from the previous one, then the previous categories
absent from the current snapshot; `meta` is excluded from both passes. -/
def diffChanged (prev cur : List (String × J)) : List (String × J) :=
  (cur.filterMap (fun kv =>
    if kv.1 = "meta" then none
    else if getKv prev kv.1 ≠ kv.2
    then some (kv.1, J.obj [("before", getKv prev kv.1), ("after", kv.2)])
    else none))
  ++ (prev.filterMap (fun kv =>
    if kv.1 = "meta" then none
    else if hasKv cur kv.1 then none
    else some (kv.1, J.obj [("before", getKv prev kv.1), ("after", J.null)])))

/-- `agent._diff(prev, cur)`; the source's early return on a falsy `prev`
(`None` or an empty dict) is the else branch here. -/
def diffSnap (prev cur : J) : J :=
  if prev.truthy then
    let changed := diffChanged prev.asObj cur.asObj
    J.obj [
      ("status", .str (if changed = [] then "ok" else "warn")),
      ("details", .str (if changed = [] then "no_changes" else "changed=" ++ toString changed.length)),
      ("data", .obj [("changed", .obj changed)])]
  else
    J.obj [
      ("status", .str "ok"),
      ("details", .str "no_previous_snapshot"),
      ("data", .obj [("changed", .obj [])])]

/-- What happened when `agent._read_json` opened its path: the file was
missing, `json.load` raised, or a JSON value was parsed. -/
inductive ReadOutcome where
  | missing
  | parseError
  | parsed (j : J)

/-- `agent._read_json`: `None` on a missing file or a parse error, and the
parsed value only when it is a dict. -/
def read_json : ReadOutcome → Option J
  | .missing => none
  | .parseError => none
  | .parsed j => if j.isObj then some j else none

/-- `agent._read_state`: the value of `_read_json` when it is a dict, else
the empty dict. -/
def read_state (o : ReadOutcome) : J :=
  match read_json o with
  | some d => if d.isObj then d else .obj []
  | none => .obj []

/-- Parsed command-line flags of `run.py`. -/
structure RunArgs where
  config : String
  once : Bool
  no_agent : Bool
  foreground : Bool

/-- Token-by-token model of the `argparse` configuration of `run.py`:
`--config` consumes the following token as its value, the three boolean
flags store true. -/
def parseArgsFrom : List String → RunArgs → RunArgs
  | [], a => a
  | x :: rest, a =>
    if x = "--config" then
      match rest with
      | v :: rest2 => parseArgsFrom rest2 { a with config := v }
      | [] => a
    else if x = "--once" then parseArgsFrom rest { a with once := true }
    else if x = "--no-agent" then parseArgsFrom rest { a with no_agent := true }
    else if x = "--foreground" then parseArgsFrom rest { a with foreground := true }
    else parseArgsFrom rest a

/-- Parse an argument vector with the default configuration path. -/
def parseRunArgs (argv : List String) (defaultConfig : String) : RunArgs :=
  { config := defaultConfig, once := false, no_agent := false, foreground := false }
    |> parseArgsFrom argv

/-- The argv assembled in the restart branch of `run.py`
(`_run`, the `restart.is_set()` case): interpreter, script path, the
resolved configuration path, `--no-agent` when it was set, and always
`--foreground`. -/
def restartArgv (python script cfg_path : String) (no_agent : Bool) : List String :=
  [python, script, "--config", cfg_path]
    ++ (if no_agent then ["--no-agent"] else []) ++ ["--foreground"]

/-- The `can_daemon` condition of `run.py`: POSIX, not `--foreground`, not
already the supervised child, not `--once`. -/
def can_daemon (posix : Bool) (a : RunArgs) (is_child : Bool) : Bool :=
  posix && !a.foreground && !is_child && !a.once

/-- A first-cycle snapshot whose `logs` probe reports status `crit` with an
empty data payload. -/
def curLogsCrit : J :=
  .obj [("logs", .obj [("status", .str "crit"), ("data", .obj [])])]

/-- The message `check_logs` builds for `curLogsCrit` (all counters zero). -/
def critLogText : String :=
  "<b>Критичные события в логах</b>\nfailed_total=<code>0</code> failed_root=<code>0</code> invalid_user=<code>0</code>"

/-- A snapshot with three pending updates. -/
def updCur3 : J :=
  .obj [("updates", .obj [("data", .obj [("count", .int 3), ("packages", .list [.str "pkgA"])])])]

/-- A snapshot with five pending updates. -/
def updCur5 : J :=
  .obj [("updates", .obj [("data", .obj [("count", .int 5)])])]

/-- A stored NotificationState with `updates_count = 3`. -/
def stUpd3 : J := .obj [("updates_count", .int 3)]

/-- A stored NotificationState whose firewall slice says enabled with one
rule. -/
def fwStOn : J :=
  .obj [("firewall", .obj [("enabled", .bool true), ("backend", .str "ufw"),
    ("rules", .list [.str "allow 22"])])]

/-- A snapshot whose firewall probe reports disabled with the same rule. -/
def fwCurOff : J :=
  .obj [("firewall", .obj [("data", .obj [("enabled", .bool false),
    ("backend", .str "ufw"), ("rules", .list [.str "allow 22"])])])]

/-- A snapshot whose `logs` probe saw a single login IP. -/
def ipsCur : J :=
  .obj [("logs", .obj [("status", .str "ok"),
    ("data", .obj [("ips", .list [.str "1.2.3.4"])])])]

theorem mem_filterMap_asStrOpt (s : String) (xs : List J) :
    s ∈ xs.filterMap asStrOpt ↔ J.str s ∈ xs := by
  simp only [List.mem_filterMap]
  constructor
  · rintro ⟨j, hj, hs⟩
    cases j <;> simp [asStrOpt] at hs
    cases hs
    exact hj
  · intro h
    exact ⟨J.str s, h, rfl⟩

theorem pyOr_list_asList (L : List J) : (pyOr (J.list L) (J.list [])).asList = L := by
  cases L <;> simp [pyOr, J.truthy, J.asList, List.isEmpty]

theorem pyStr_pyOr_str (s : String) : pyStr (pyOr (J.str s) (J.str "")) = s := by
  by_cases h : s = ""
  · subst h; simp [pyOr, J.truthy, pyStr]
  · simp [pyOr, J.truthy, pyStr, h]

theorem intOrZero_int (n : Int) : intOrZero (J.int n) = n := by
  by_cases h : n = 0
  · subst h; simp [intOrZero, J.isIntLike, pyOr, J.truthy, pyToInt]
  · simp [intOrZero, J.isIntLike, pyOr, J.truthy, pyToInt, h]

theorem portOfState_portToJ (t : PortTup) : portOfState (portToJ t) = some t := by
  rcases t with ⟨a, b, c⟩
  rfl

theorem next_state_get_ips (cur : J) :
    (agent_next_state cur).get "ips"
      = J.list ((pySorted leStr ((cur_ips_of cur).filterMap asStrOpt)).map .str) := rfl

theorem next_state_get_ports (cur : J) :
    (agent_next_state cur).get "ports"
      = J.list ((pySorted lePort (cur_ps_of cur)).map portToJ) := rfl

theorem next_state_get_sudo (cur : J) :
    (agent_next_state cur).get "sudo_users"
      = J.list ((pySorted leStr (cur_sudo_of cur)).map .str) := rfl

theorem next_state_get_updates (cur : J) :
    (agent_next_state cur).get "updates_count" = J.int (cur_cc_of cur) := rfl

theorem next_state_get_logs (cur : J) :
    (agent_next_state cur).get "logs_status" = J.str (cur_log_status_of cur) := rfl

theorem mem_prev_ips_next (cur : J) (x : J) :
    x ∈ prev_ips_of (agent_next_state cur)
      ↔ ∃ s, x = J.str s ∧ J.str s ∈ cur_ips_of cur := by
  rw [prev_ips_of, next_state_get_ips]
  simp only [J.isList, if_pos, pyOr_list_asList, List.mem_dedup, List.mem_map,
    mem_pySorted, mem_filterMap_asStrOpt]
  constructor
  · rintro ⟨s, hs, rfl⟩
    exact ⟨s, rfl, hs⟩
  · rintro ⟨s, rfl, hs⟩
    exact ⟨s, hs, rfl⟩

theorem mem_prev_ps_next (cur : J) (t : PortTup) :
    t ∈ prev_ps_of (agent_next_state cur) ↔ t ∈ cur_ps_of cur := by
  rw [prev_ps_of, next_state_get_ports]
  simp only [List.mem_dedup, List.filterMap_map, Function.comp_def,
    portOfState_portToJ, List.filterMap_some, mem_pySorted]

theorem mem_prev_sudo_next (cur : J) (x : J) :
    x ∈ prev_sudo_of (agent_next_state cur)
      ↔ ∃ s, x = J.str s ∧ s ∈ cur_sudo_of cur := by
  rw [prev_sudo_of, next_state_get_sudo]
  simp only [J.isList, if_pos, pyOr_list_asList, List.mem_dedup, List.mem_map, mem_pySorted]
  constructor
  · rintro ⟨s, hs, rfl⟩
    exact ⟨s, rfl, hs⟩
  · rintro ⟨s, rfl, hs⟩
    exact ⟨s, hs, rfl⟩

theorem check_new_ips_next (c : NotifyConfig) (cur : J) :
    check_new_ips c cur (agent_next_state cur) = [] := by
  have hnil : new_ips_of cur (agent_next_state cur) = [] := by
    rw [new_ips_of]
    have : ((cur_ips_of cur).filter
        (fun ip => decide (ip ∉ prev_ips_of (agent_next_state cur)))).filterMap
        (fun ip => match ip with
          | J.str s => if s ≠ "" ∧ s ≠ "0.0.0.0" then some s else none
          | _ => none) = [] := by
      rw [List.filterMap_eq_nil_iff]
      intro a ha
      rw [List.mem_filter] at ha
      obtain ⟨hmem, hdec⟩ := ha
      cases a with
      | str s =>
        exfalso
        rw [decide_eq_true_eq] at hdec
        exact hdec ((mem_prev_ips_next cur _).mpr ⟨s, rfl, hmem⟩)
      | null => rfl
      | bool b => rfl
      | int n => rfl
      | list xs => rfl
      | obj kvs => rfl
    rw [this]
    rfl
  simp [check_new_ips, hnil]

theorem check_ports_next (c : NotifyConfig) (cur : J) :
    check_ports c cur (agent_next_state cur) = [] := by
  have hadd : (cur_ps_of cur).filter
      (fun t => decide (t ∉ prev_ps_of (agent_next_state cur))) = [] := by
    rw [List.filter_eq_nil_iff]
    intro t ht
    simp [mem_prev_ps_next, ht]
  have hrem : (prev_ps_of (agent_next_state cur)).filter
      (fun t => decide (t ∉ cur_ps_of cur)) = [] := by
    rw [List.filter_eq_nil_iff]
    intro t ht
    rw [mem_prev_ps_next] at ht
    simp [ht]
  rw [check_ports, hadd, hrem]
  simp [pySorted]

theorem check_sudo_users_next (c : NotifyConfig) (cur : J) :
    check_sudo_users c cur (agent_next_state cur) = [] := by
  have hnil : new_sudo_of cur (agent_next_state cur) = [] := by
    rw [new_sudo_of]
    have : (cur_sudo_of cur).filter
        (fun s => decide (J.str s ∉ prev_sudo_of (agent_next_state cur))) = [] := by
      rw [List.filter_eq_nil_iff]
      intro s hs
      simp only [decide_eq_true_eq, not_not, Decidable.not_not]
      simp [mem_prev_sudo_next, hs]
    rw [this]
    rfl
  simp [check_sudo_users, hnil]

theorem check_updates_next (c : NotifyConfig) (cur : J) :
    check_updates c cur (agent_next_state cur) = [] := by
  rw [check_updates]
  have hpc : prev_pc_of (agent_next_state cur) = cur_cc_of cur := by
    rw [prev_pc_of, next_state_get_updates, intOrZero_int]
  by_cases h : 0 < upd_count (objOr (cur.get "updates"))
  · have : ¬ (prev_pc_of (agent_next_state cur) = 0) := by
      rw [hpc]
      intro h0
      rw [cur_cc_of] at h0
      omega
    simp [this]
  · simp [h]

theorem check_logs_next (c : NotifyConfig) (cur : J) :
    check_logs c cur (agent_next_state cur) = [] := by
  rw [check_logs]
  have hprev : prev_log_status_of (agent_next_state cur) = cur_log_status_of cur := by
    rw [prev_log_status_of, next_state_get_logs, pyStr_pyOr_str]
  by_cases h : cur_log_status_of cur = "warn" ∨ cur_log_status_of cur = "crit"
  · simp [h, hprev]
  · simp [h]

/-- C1, counterexample.  The claim says that with an empty previous
NotificationState and current logs status `crit`, zero severity-transition
alerts fire for the logs category.  On the code the stored status reads back
as `""`, which differs from `"crit"`, so the transition branch fires: on the
concrete first-cycle snapshot `curLogsCrit` the logs detector emits one
alert. -/
theorem first_run_crit_alert_fires :
    check_logs ⟨true, true⟩ curLogsCrit (J.obj []) ≠ [] := by decide

/-- C1, amended.  With an empty previous NotificationState and a current
logs status of `crit` (resp. `warn`), the logs detector emits exactly one
alert of that severity when the corresponding delivery flag is set (the
empty prior status `""` differs from the current status, so the transition
condition holds); the rebuilt NotificationState records `logs_status` equal
to the current status. -/
theorem first_run_logs_transition (c : NotifyConfig) (cur : J) :
    (cur_log_status_of cur = "crit" → c.send_critical = true →
      ∃ t, check_logs c cur (J.obj []) = [("crit", t)])
  ∧ (cur_log_status_of cur = "warn" → c.send_warning = true →
      ∃ t, check_logs c cur (J.obj []) = [("warn", t)])
  ∧ (agent_next_state cur).get "logs_status" = J.str (cur_log_status_of cur) := by
  have hprev : prev_log_status_of (J.obj []) = "" := rfl
  refine ⟨?_, ?_, rfl⟩
  · intro hc hflag
    rw [check_logs, hprev, hc]
    simp [hflag]
  · intro hc hflag
    rw [check_logs, hprev, hc]
    simp [hflag]

/-- C1, witness for the amended theorem at the concrete snapshot
`curLogsCrit`. -/
theorem first_run_logs_transition_witness :
    ∃ t, check_logs ⟨true, true⟩ curLogsCrit (J.obj []) = [("crit", t)] :=
  (first_run_logs_transition ⟨true, true⟩ curLogsCrit).1 rfl rfl

/-- C2.  The NotificationState written at the end of a `_notify` cycle is a
pure fingerprint of the current snapshot (`ips`, `ports`, `sudo_users`,
`updates_count`, `logs_status`): it does not depend on the `send_warning` /
`send_critical` flags, the recipient list, delivery failures, or the
previous state — those gate delivery only. -/
theorem notify_state_flag_independent (c1 c2 : NotifyConfig) (r1 r2 : List Int)
    (f1 f2 : Int → String → Bool) (s1 s2 cur : J) :
    (notify c1 r1 f1 cur s1).2 = (notify c2 r2 f2 cur s2).2
  ∧ (notify c1 r1 f1 cur s1).2 = J.obj [
      ("ips", .list ((pySorted leStr ((cur_ips_of cur).filterMap asStrOpt)).map .str)),
      ("ports", .list ((pySorted lePort (cur_ps_of cur)).map portToJ)),
      ("sudo_users", .list ((pySorted leStr (cur_sudo_of cur)).map .str)),
      ("updates_count", .int (cur_cc_of cur)),
      ("logs_status", .str (cur_log_status_of cur))] :=
  ⟨rfl, rfl⟩

/-- C3.  The updates detector fires exactly on the zero-to-nonzero edge:
one `warn` alert when the stored count is zero and the current count
positive (with warnings deliverable), no alert at all when the stored count
is nonzero, and on a current count of zero no alert with the rebuilt state
storing zero. -/
theorem updates_edge_only (c : NotifyConfig) (cur st : J) :
    (prev_pc_of st = 0 → 0 < cur_cc_of cur → c.send_warning = true →
      ∃ t, check_updates c cur st = [("warn", t)])
  ∧ (prev_pc_of st ≠ 0 → check_updates c cur st = [])
  ∧ (cur_cc_of cur = 0 →
      check_updates c cur st = []
        ∧ (agent_next_state cur).get "updates_count" = J.int 0) := by
  refine ⟨?_, ?_, ?_⟩
  · intro hpc hcc hw
    rw [check_updates]
    rw [cur_cc_of] at hcc
    simp [hcc, hpc, hw]
  · intro hpc
    rw [check_updates]
    simp [hpc]
  · intro hcc
    rw [cur_cc_of] at hcc
    constructor
    · rw [check_updates, hcc]
      simp
    · rw [next_state_get_updates, cur_cc_of, hcc]

/-- C3, witness: the zero-to-three edge fires once, three-to-five fires
nothing. -/
theorem updates_edge_only_witness :
    (∃ t, check_updates ⟨true, true⟩ updCur3 (J.obj []) = [("warn", t)])
  ∧ check_updates ⟨true, true⟩ updCur5 stUpd3 = [] :=
  ⟨(updates_edge_only ⟨true, true⟩ updCur3 (J.obj [])).1 rfl (by decide) rfl,
   (updates_edge_only ⟨true, true⟩ updCur5 stUpd3).2.1 (by decide)⟩

/-- C4.  Suppression idempotence: running the notification engine a second
time on the same snapshot, starting from the NotificationState the first
run rebuilt, yields zero alerts — every detector finds no change against
the stored fingerprint — and hence delivers nothing. -/
theorem second_run_no_alerts (c1 c2 : NotifyConfig) (r1 r2 : List Int)
    (f1 f2 : Int → String → Bool) (st0 cur : J) :
    notifyMsgs c2 cur ((notify c1 r1 f1 cur st0).2) = []
  ∧ (notify c2 r2 f2 cur ((notify c1 r1 f1 cur st0).2)).1 = [] := by
  have hmsgs : notifyMsgs c2 cur (agent_next_state cur) = [] := by
    rw [notifyMsgs, check_new_ips_next, check_ports_next, check_sudo_users_next,
      check_updates_next, check_logs_next]
    rfl
  constructor
  · exact hmsgs
  · show send_all c2 r2 f2 (notifyMsgs c2 cur (agent_next_state cur)) = []
    rw [hmsgs]
    rfl

/-- C5.  Delivery isolation: a failing send for one recipient (modelled by
the `fails` oracle) cannot prevent any other gated message from reaching any
other non-failing recipient, and the NotificationState written at the end of
the cycle is unchanged by delivery failures. -/
theorem delivery_isolation (c : NotifyConfig) (recips : List Int)
    (fails : Int → String → Bool) (cur st : J) (uid : Int) (lvl t : String)
    (hm : (lvl, t) ∈ notifyMsgs c cur st) (hu : uid ∈ recips)
    (hf : fails uid t = false) (hg : levelGate c lvl = true) :
    (uid, t) ∈ (notify c recips fails cur st).1
  ∧ (notify c recips fails cur st).2 = agent_next_state cur := by
  constructor
  · show (uid, t) ∈ send_all c recips fails (notifyMsgs c cur st)
    rw [send_all]
    simp only [List.mem_flatMap]
    refine ⟨(lvl, t), ?_, ?_⟩
    · rw [List.mem_filter]
      exact ⟨hm, hg⟩
    · simp only [List.mem_map]
      refine ⟨uid, ?_, rfl⟩
      rw [List.mem_filter]
      refine ⟨hu, ?_⟩
      rw [hf]
      rfl
  · rfl

/-- C5, witness: with recipients 1 and 2 and every send to recipient 1
raising, recipient 2 still receives the crit alert and the state still
advances to the fingerprint of the snapshot. -/
theorem delivery_isolation_witness :
    (2, critLogText) ∈ (notify ⟨true, true⟩ [1, 2] (fun uid _ => decide (uid = 1))
      curLogsCrit (J.obj [])).1
  ∧ (notify ⟨true, true⟩ [1, 2] (fun uid _ => decide (uid = 1))
      curLogsCrit (J.obj [])).2 = agent_next_state curLogsCrit :=
  delivery_isolation ⟨true, true⟩ [1, 2] (fun uid _ => decide (uid = 1))
    curLogsCrit (J.obj []) 2 "crit" critLogText (by decide) (by decide)
    (by decide) (by decide)

/-- C6.  The firewall detector: `crit` on an enabled-to-disabled transition
(when criticals are deliverable), `warn` on disabled-to-enabled (when
warnings are deliverable), `warn` on a ruleset-membership delta with a
non-empty current ruleset, and no enabled-transition alert when either
stored or current enabled flag is `None`. -/
theorem firewall_transition_alerts (c : NotifyConfig) (cur st : J) :
    (prev_fw_enabled_of st = J.bool true → fw_enabled_of cur = J.bool false →
      c.send_critical = true → ∃ t, fw_enabled_alerts c cur st = [("crit", t)])
  ∧ (prev_fw_enabled_of st = J.bool false → fw_enabled_of cur = J.bool true →
      c.send_warning = true → ∃ t, fw_enabled_alerts c cur st = [("warn", t)])
  ∧ (fw_rules_of cur ≠ [] → (fw_added_of cur st ≠ [] ∨ fw_removed_of cur st ≠ []) →
      c.send_warning = true → ∃ t, fw_rule_alerts c cur st = [("warn", t)])
  ∧ (prev_fw_enabled_of st = J.null ∨ fw_enabled_of cur = J.null →
      fw_enabled_alerts c cur st = []) := by
  refine ⟨?_, ?_, ?_, ?_⟩
  · intro hp hc hflag
    rw [fw_enabled_alerts, hp, hc]
    simp [hflag]
  · intro hp hc hflag
    rw [fw_enabled_alerts, hp, hc]
    simp [hflag]
  · intro hr hd hflag
    have hne : prev_fw_rules_of st ≠ fw_rules_of cur := by
      rcases hd with hd | hd
      · obtain ⟨x, hx⟩ := List.exists_mem_of_ne_nil _ hd
        rw [fw_added_of, List.mem_filter, List.mem_dedup, decide_eq_true_eq] at hx
        intro he
        exact hx.2 (he ▸ hx.1)
      · obtain ⟨x, hx⟩ := List.exists_mem_of_ne_nil _ hd
        rw [fw_removed_of, List.mem_filter, List.mem_dedup, decide_eq_true_eq] at hx
        intro he
        exact hx.2 (he ▸ hx.1)
    rw [fw_rule_alerts]
    rw [if_pos ⟨hr, hne, hflag⟩, if_pos hd]
    exact ⟨_, rfl⟩
  · intro h
    rw [fw_enabled_alerts]
    rcases h with h | h <;> rw [h] <;> simp

/-- C6, witness: firewall going from enabled (stored) to disabled (current)
with criticals deliverable yields exactly one `crit` alert. -/
theorem firewall_transition_alerts_witness :
    ∃ t, fw_enabled_alerts ⟨true, true⟩ fwCurOff fwStOn = [("crit", t)] :=
  (firewall_transition_alerts ⟨true, true⟩ fwCurOff fwStOn).1 (by decide) (by decide) rfl

/-- C7.  Diffing against an absent previous snapshot yields the fixed
first-run result: status `ok`, details `no_previous_snapshot`, and an empty
changed map. -/
theorem diff_no_previous (S : J) :
    diffSnap J.null S = J.obj [
      ("status", .str "ok"),
      ("details", .str "no_previous_snapshot"),
      ("data", .obj [("changed", .obj [])])] := rfl

/-- C8.  Reading persisted state tolerates corruption: a missing file, a
JSON parse error, or a parsed non-dict all yield `None` from `_read_json`
(the empty dict from `_read_state`), modelled as total functions — the
pipeline falls back to first-run semantics instead of failing the cycle. -/
theorem read_state_tolerates_corruption :
    read_json ReadOutcome.missing = none
  ∧ read_json ReadOutcome.parseError = none
  ∧ (∀ j : J, j.isObj = false → read_json (ReadOutcome.parsed j) = none)
  ∧ read_state ReadOutcome.missing = J.obj []
  ∧ read_state ReadOutcome.parseError = J.obj []
  ∧ (∀ j : J, j.isObj = false → read_state (ReadOutcome.parsed j) = J.obj []) := by
  refine ⟨rfl, rfl, ?_, rfl, rfl, ?_⟩
  · intro j h
    rw [read_json, h]
    rfl
  · intro j h
    rw [read_state, read_json, h]
    rfl

/-- C8, witness: a parsed JSON array and a parsed number are both treated
as absent state. -/
theorem read_state_tolerates_corruption_witness :
    read_json (ReadOutcome.parsed (J.list [])) = none
  ∧ read_state (ReadOutcome.parsed (J.int 5)) = J.obj [] :=
  ⟨read_state_tolerates_corruption.2.2.1 (J.list []) rfl,
   read_state_tolerates_corruption.2.2.2.2.2 (J.int 5) rfl⟩

theorem can_daemon_of_foreground (posix child : Bool) (a : RunArgs)
    (h : a.foreground = true) : can_daemon posix a child = false := by
  rw [can_daemon, h]
  simp

/-- C9.  The argv assembled by the restart branch relaunches with the same
resolved configuration path, carries the `--no-agent` flag forward, always
sets `--foreground`, and the relaunched instance parses to a state in which
the daemonizing fork (`can_daemon`) is disabled on every platform. -/
theorem restart_preserves_config (python script cfg : String) (na posix child : Bool) :
    (parseRunArgs ((restartArgv python script cfg na).drop 2) cfg).config = cfg
  ∧ (parseRunArgs ((restartArgv python script cfg na).drop 2) cfg).foreground = true
  ∧ (parseRunArgs ((restartArgv python script cfg na).drop 2) cfg).no_agent = na
  ∧ (parseRunArgs ((restartArgv python script cfg na).drop 2) cfg).once = false
  ∧ can_daemon posix (parseRunArgs ((restartArgv python script cfg na).drop 2) cfg) child
      = false := by
  cases na <;>
    exact ⟨rfl, rfl, rfl, rfl, can_daemon_of_foreground posix child _ rfl⟩

/-- C10.  Display truncation with full accounting: each message section
shows a capped number of items (10 new IPs, 15 added and 15 removed ports,
20 new sudo users, 10 package names, 20 added and 20 removed firewall
rules — exactly the lists the message builders render), while the detectors
compare full sets and the rebuilt NotificationState keeps every item. -/
theorem truncation_caps (cur st : J) :
    ((new_ips_of cur st).take 10).length ≤ 10
  ∧ (((pySorted lePort ((cur_ps_of cur).filter (fun t => decide (t ∉ prev_ps_of st)))).take 15).length ≤ 15
  ∧ (((pySorted lePort ((prev_ps_of st).filter (fun t => decide (t ∉ cur_ps_of cur)))).take 15).length ≤ 15
  ∧ (((new_sudo_of cur st).take 20).length ≤ 20
  ∧ ((((objOr ((objOr (cur.get "updates")).get "data")).get "packages").asList.take 10).length ≤ 10
  ∧ ((((pySorted leStr (fw_added_of cur st)).take 20).length ≤ 20
        ∧ ((pySorted leStr (fw_removed_of cur st)).take 20).length ≤ 20)
  ∧ ((∀ s : String, J.str s ∈ cur_ips_of cur → J.str s ∉ prev_ips_of st →
        s ≠ "" → s ≠ "0.0.0.0" → s ∈ new_ips_of cur st)
  ∧ ((∀ s : String, J.str s ∈ cur_ips_of cur →
        J.str s ∈ prev_ips_of (agent_next_state cur))
  ∧ ((∀ t : PortTup, t ∈ cur_ps_of cur → t ∈ prev_ps_of (agent_next_state cur))
  ∧ ((∀ s : String, s ∈ cur_sudo_of cur → J.str s ∈ prev_sudo_of (agent_next_state cur))
  ∧ prev_pc_of (agent_next_state cur) = cur_cc_of cur))))))))) := by
  refine ⟨List.length_take_le _ _, List.length_take_le _ _, List.length_take_le _ _,
    List.length_take_le _ _, List.length_take_le _ _,
    ⟨List.length_take_le _ _, List.length_take_le _ _⟩, ?_, ?_, ?_, ?_, ?_⟩
  · intro s hmem hnot hne hzero
    rw [new_ips_of, mem_pySorted, List.mem_filterMap]
    refine ⟨J.str s, ?_, ?_⟩
    · rw [List.mem_filter]
      exact ⟨hmem, by simpa using hnot⟩
    · simp [hne, hzero]
  · intro s hmem
    exact (mem_prev_ips_next cur _).mpr ⟨s, rfl, hmem⟩
  · intro t hmem
    exact (mem_prev_ps_next cur t).mpr hmem
  · intro s hmem
    exact (mem_prev_sudo_next cur _).mpr ⟨s, rfl, hmem⟩
  · rw [prev_pc_of, next_state_get_updates, intOrZero_int]

/-- C10, witness: a single login IP is both detected and fully recorded in
the rebuilt state. -/
theorem truncation_caps_witness :
    "1.2.3.4" ∈ new_ips_of ipsCur (J.obj [])
  ∧ J.str "1.2.3.4" ∈ prev_ips_of (agent_next_state ipsCur) :=
  ⟨((truncation_caps ipsCur (J.obj [])).2.2.2.2.2.2.1) "1.2.3.4"
      (by decide) (by decide) (by decide) (by decide),
   ((truncation_caps ipsCur (J.obj [])).2.2.2.2.2.2.2.1) "1.2.3.4"
      (by decide)⟩

end SecOps
